import Mathlib

/-!
Verification of the brood-flow decode-and-publish core.

Shallow embedding of `src/broodminder_device.rs` and the dispatch loop of
`src/main.rs`.  Byte buffers are `List Nat` (each entry a `u8` value; all
arithmetic in the source first widens bytes to `f32`, so no wrap-around can
occur and plain `Nat` is faithful).  The `f32` arithmetic of the source is
modelled two ways: the main embedding uses exact rational arithmetic `ℚ`
(recording the source's order of operations), and a separate exact model of
IEEE-754 binary32 round-to-nearest-even (`roundF32`) is used where a property
depends on rounding.  Out-of-bounds `Vec` indexing panics in Rust; a panic is
modelled as `none` (when nothing was mutated before it) or as a `false`
success flag with the partially mutated state (when it interrupts a sequence
of in-place assignments).
-/

/-- Mirrors `struct BroodminderDevice` in `src/broodminder_device.rs` (lines
6-35).  The `u8` fields are `Nat`, the `f32` fields are `ℚ`, the `i64`
millisecond timestamps are `Int`. -/
structure BroodminderDevice where
  device_id : String
  model : Nat
  minor_version : Nat
  major_version : Nat
  realtime_temp1 : Nat
  battery_percent : Nat
  elapsed1 : Nat
  elapsed2 : Nat
  temp1 : Nat
  temp2 : Nat
  realtime_temp2 : Nat
  realtime_weight1 : Nat
  realtime_weight2 : Nat
  realtime_temperature_c : ℚ
  realtime_temperature_f : ℚ
  temperature_c : ℚ
  temperature_f : ℚ
  realtime_weight_kg : ℚ
  realtime_weight_lbs : ℚ
  last_config_sent : Int
  last_state_sent : Int
deriving DecidableEq

/-- Mirrors `BroodminderDevice::is_broodminder`: the manufacturer-data map
(modelled as an association list) contains key 653. -/
def lookupKey : List (Nat × List Nat) → Nat → Option (List Nat)
  | [], _ => none
  | (k, v) :: rest, key => if k = key then some v else lookupKey rest key

/-- Mirrors `BroodminderDevice::is_broodminder` (line 41-43):
`data.contains_key(&653)`. -/
def is_broodminder (data : List (Nat × List Nat)) : Bool :=
  (lookupKey data 653).isSome

/-- Mirrors `BroodminderDevice::build_broodminder_device` (lines 45-76).  The
source indexes `data[0]`..`data[9]`, `data[19]`, `data[20]` unconditionally
while evaluating the struct literal, for every model; any out-of-bounds index
panics before the struct is produced, so the construction is all-or-nothing:
it succeeds exactly when every index is in bounds (largest index 20).  The
derived `f32` fields are recorded as exact rationals, keeping the source's
order of operations. -/
def build_broodminder_device (data : List Nat) : Option BroodminderDevice :=
  if h : 20 < data.length then
    some
      { device_id := "(unknown)"
        model := data.get ⟨0, by omega⟩
        minor_version := data.get ⟨1, by omega⟩
        major_version := data.get ⟨2, by omega⟩
        realtime_temp1 := data.get ⟨3, by omega⟩
        battery_percent := data.get ⟨4, by omega⟩
        elapsed1 := data.get ⟨5, by omega⟩
        elapsed2 := data.get ⟨6, by omega⟩
        temp1 := data.get ⟨7, by omega⟩
        temp2 := data.get ⟨8, by omega⟩
        realtime_temp2 := data.get ⟨9, by omega⟩
        realtime_weight1 := data.get ⟨19, by omega⟩
        realtime_weight2 := data.get ⟨20, by omega⟩
        realtime_temperature_c :=
          (256 * (data.get ⟨9, by omega⟩ : ℚ) + (data.get ⟨3, by omega⟩ : ℚ) - 5000) / 100
        realtime_temperature_f :=
          ((256 * (data.get ⟨9, by omega⟩ : ℚ) + (data.get ⟨3, by omega⟩ : ℚ) - 5000) / 100) * 9
            / 5 + 32
        temperature_c :=
          (256 * (data.get ⟨8, by omega⟩ : ℚ) + (data.get ⟨7, by omega⟩ : ℚ) - 5000) / 100
        temperature_f :=
          ((256 * (data.get ⟨8, by omega⟩ : ℚ) + (data.get ⟨7, by omega⟩ : ℚ) - 5000) / 100) * 9
            / 5 + 32
        realtime_weight_kg :=
          (256 * (data.get ⟨20, by omega⟩ : ℚ) - (data.get ⟨19, by omega⟩ : ℚ) - 32767) / 100
        realtime_weight_lbs :=
          2.204623 * (256 * (data.get ⟨20, by omega⟩ : ℚ) - (data.get ⟨19, by omega⟩ : ℚ)
            - 32767) / 100
        last_config_sent := 0
        last_state_sent := 0 }
  else none

/-- Assignment `self.realtime_temp1 = data[3]` (source line 80). -/
def setRealtimeTemp1 (d : BroodminderDevice) (b : Nat) : BroodminderDevice :=
  { d with realtime_temp1 := b }

/-- Assignment `self.battery_percent = data[4]` (source line 81). -/
def setBatteryPercent (d : BroodminderDevice) (b : Nat) : BroodminderDevice :=
  { d with battery_percent := b }

/-- Assignment `self.elapsed1 = data[5]` (source line 82). -/
def setElapsed1 (d : BroodminderDevice) (b : Nat) : BroodminderDevice :=
  { d with elapsed1 := b }

/-- Assignment `self.elapsed2 = data[6]` (source line 83). -/
def setElapsed2 (d : BroodminderDevice) (b : Nat) : BroodminderDevice :=
  { d with elapsed2 := b }

/-- Assignment `self.temp1 = data[7]` (source line 84). -/
def setTemp1 (d : BroodminderDevice) (b : Nat) : BroodminderDevice :=
  { d with temp1 := b }

/-- Assignment `self.temp2 = data[8]` (source line 85). -/
def setTemp2 (d : BroodminderDevice) (b : Nat) : BroodminderDevice :=
  { d with temp2 := b }

/-- Assignment `self.realtime_temp2 = data[9]` (source line 86). -/
def setRealtimeTemp2 (d : BroodminderDevice) (b : Nat) : BroodminderDevice :=
  { d with realtime_temp2 := b }

/-- Assignment `self.realtime_weight1 = data[19]` (source line 87). -/
def setRealtimeWeight1 (d : BroodminderDevice) (b : Nat) : BroodminderDevice :=
  { d with realtime_weight1 := b }

/-- Assignment `self.realtime_weight2 = data[20]` (source line 88). -/
def setRealtimeWeight2 (d : BroodminderDevice) (b : Nat) : BroodminderDevice :=
  { d with realtime_weight2 := b }

/-- The derived-field assignments of `BroodminderDevice::update` (source lines
90-99).  They re-read indices 3, 7, 8, 9, 19, 20 of the buffer; when this
runs all of them are in bounds (index 20 was just read), so the `getD`
defaults are never used. -/
def setDerived (d : BroodminderDevice) (data : List Nat) : BroodminderDevice :=
  { d with
      realtime_temperature_c :=
        (256 * (data.getD 9 0 : ℚ) + (data.getD 3 0 : ℚ) - 5000) / 100
      realtime_temperature_f :=
        ((256 * (data.getD 9 0 : ℚ) + (data.getD 3 0 : ℚ) - 5000) / 100) * 9 / 5 + 32
      temperature_c :=
        (256 * (data.getD 8 0 : ℚ) + (data.getD 7 0 : ℚ) - 5000) / 100
      temperature_f :=
        ((256 * (data.getD 8 0 : ℚ) + (data.getD 7 0 : ℚ) - 5000) / 100) * 9 / 5 + 32
      realtime_weight_kg :=
        (256 * (data.getD 20 0 : ℚ) - (data.getD 19 0 : ℚ) - 32767) / 100
      realtime_weight_lbs :=
        2.204623 * (256 * (data.getD 20 0 : ℚ) - (data.getD 19 0 : ℚ) - 32767) / 100 }

/-- Mirrors `BroodminderDevice::update` (lines 79-100): a sequence of in-place
field assignments, each reading one buffer index; an out-of-bounds index
panics, leaving the record with exactly the assignments made before the
failing read.  The boolean records whether every index was in bounds. -/
def update (d0 : BroodminderDevice) (data : List Nat) : BroodminderDevice × Bool :=
  if h3 : 3 < data.length then
    let d := setRealtimeTemp1 d0 (data.get ⟨3, h3⟩)
    if h4 : 4 < data.length then
      let d := setBatteryPercent d (data.get ⟨4, h4⟩)
      if h5 : 5 < data.length then
        let d := setElapsed1 d (data.get ⟨5, h5⟩)
        if h6 : 6 < data.length then
          let d := setElapsed2 d (data.get ⟨6, h6⟩)
          if h7 : 7 < data.length then
            let d := setTemp1 d (data.get ⟨7, h7⟩)
            if h8 : 8 < data.length then
              let d := setTemp2 d (data.get ⟨8, h8⟩)
              if h9 : 9 < data.length then
                let d := setRealtimeTemp2 d (data.get ⟨9, h9⟩)
                if h19 : 19 < data.length then
                  let d := setRealtimeWeight1 d (data.get ⟨19, h19⟩)
                  if h20 : 20 < data.length then
                    let d := setRealtimeWeight2 d (data.get ⟨20, h20⟩)
                    (setDerived d data, true)
                  else (d, false)
                else (d, false)
              else (d, false)
            else (d, false)
          else (d, false)
        else (d, false)
      else (d, false)
    else (d, false)
  else (d0, false)

/-- The device registry: `HashMap<String, BroodminderDevice>` in `main.rs`
(line 59), modelled as an association list with at most one entry per key. -/
abbrev Registry := List (String × BroodminderDevice)

/-- Key lookup, mirroring `HashMap` indexing / `contains_key`. -/
def Registry.find : Registry → String → Option BroodminderDevice
  | [], _ => none
  | (k, v) :: rest, key => if k = key then some v else Registry.find rest key

/-- Key insertion/replacement, mirroring `HashMap::insert` and in-place
mutation through `entry(..)`. -/
def Registry.insert : Registry → String → BroodminderDevice → Registry
  | [], key, v => [(key, v)]
  | (k, w) :: rest, key, v =>
      if k = key then (key, v) :: rest else (k, w) :: Registry.insert rest key v

/-- Mirrors `self.device_id.clone().replace(":", "")`: replacing every `":"`
by the empty string removes every `':'` character. -/
def stripColons (s : String) : String :=
  String.mk (s.data.filter (fun c => c != ':'))

/-- One Home Assistant discovery-configuration MQTT message, with the topic it
is published to and the JSON payload fields built by `send_config_messages`
(source lines 203-213 and 231-240).  The temperature message carries a
`device_class` field, the weight message does not. -/
structure ConfigMessage where
  topic : String
  name : String
  device_class : Option String
  expire_after : Nat
  force_update : Bool
  state_class : String
  unit_of_measurement : String
  state_topic : String
  value_template : String
  unique_id : String
deriving DecidableEq

/-- One state MQTT message, with its topic and the JSON payload built by
`send_state_message` (source lines 133-142): key `temperature_c` holds
`realtime_temperature_c`, and key `weight_lbs` is present exactly for model
57, holding `realtime_weight_lbs`. -/
structure StateMessage where
  topic : String
  temperature_c : ℚ
  weight_lbs : Option ℚ
deriving DecidableEq

/-- An outbound MQTT publication handed to the transport. -/
inductive OutboundMessage where
  | config : ConfigMessage → OutboundMessage
  | state : StateMessage → OutboundMessage
deriving DecidableEq

/-- The temperature configuration message (source lines 202-215). -/
def tempConfigMessage (device_id simple_id : String) : ConfigMessage :=
  { topic := "homeassistant/sensor/BM" ++ simple_id ++ "Temp/config"
    name := device_id ++ "_temperature"
    device_class := some "temperature"
    expire_after := 3600
    force_update := true
    state_class := "measurement"
    unit_of_measurement := "°C"
    state_topic := "homeassistant/sensor/BM" ++ simple_id ++ "/state"
    value_template := "\x7b\x7b value_json.temperature_c \x7d\x7d"
    unique_id := simple_id ++ "_temperature" }

/-- The weight configuration message (source lines 230-242). -/
def weightConfigMessage (device_id simple_id : String) : ConfigMessage :=
  { topic := "homeassistant/sensor/BM" ++ simple_id ++ "Weight/config"
    name := device_id ++ "_weight"
    device_class := none
    expire_after := 3600
    force_update := true
    state_class := "measurement"
    unit_of_measurement := "kg"
    state_topic := "homeassistant/sensor/BM" ++ simple_id ++ "/state"
    value_template := "\x7b\x7b value_json.weight_lbs \x7d\x7d"
    unique_id := simple_id ++ "_weight" }

/-- Mirrors `BroodminderDevice::send_state_message` (lines 116-157): return
unchanged for the unresolved sentinel id; otherwise, when more than 30000 ms
have passed since `last_state_sent`, build the state message and set
`last_state_sent` to the current time.  The source reads the clock twice
(lines 126 and 155); both reads are modelled by the single argument `now`. -/
def send_state_message (d : BroodminderDevice) (now : Int) :
    BroodminderDevice × Option StateMessage :=
  if d.device_id = "00:00:00" then (d, none)
  else if now - d.last_state_sent > 30000 then
    let simple_id := stripColons d.device_id
    let m : StateMessage :=
      { topic := "homeassistant/sensor/BM" ++ simple_id ++ "/state"
        temperature_c := d.realtime_temperature_c
        weight_lbs := if d.model = 57 then some d.realtime_weight_lbs else none }
    ({ d with last_state_sent := now }, some m)
  else (d, none)

/-- Mirrors `BroodminderDevice::send_config_messages` (lines 160-258): return
unchanged for the unresolved sentinel id; otherwise, when more than 3600000 ms
have passed since `last_config_sent`, build the temperature configuration
message for models 47 and 57 and additionally the weight configuration message
for model 57, then set `last_config_sent` to the current time unconditionally
(line 256 runs for every model once the window test passed). -/
def send_config_messages (d : BroodminderDevice) (now : Int) :
    BroodminderDevice × List ConfigMessage :=
  if d.device_id = "00:00:00" then (d, [])
  else if now - d.last_config_sent > 3600000 then
    let simple_id := stripColons d.device_id
    let tempList :=
      if d.model = 47 ∨ d.model = 57 then [tempConfigMessage d.device_id simple_id] else []
    let weightList :=
      if d.model = 57 then [weightConfigMessage d.device_id simple_id] else []
    ({ d with last_config_sent := now }, tempList ++ weightList)
  else (d, [])

/-- Mirrors the registry-update block of the dispatch loop in `main.rs` (lines
81-96): an already-seen identity is updated in place through
`entry(..).or_default().update(..)` (since `contains_key` was just checked,
`or_default` never constructs); an unseen identity gets a freshly built record
whose `device_id` is then overwritten with the resolved identity, inserted
into the map.  Results: updated registry, `was_new`, and whether the payload
indexing succeeded (`false` models the panic that kills the dispatch task). -/
def upsert (devices : Registry) (device_id : String) (data : List Nat) :
    Registry × Bool × Bool :=
  match Registry.find devices device_id with
  | some d =>
      let r := update d data
      (Registry.insert devices device_id r.1, false, r.2)
  | none =>
      match build_broodminder_device data with
      | some b =>
          (Registry.insert devices device_id { b with device_id := device_id }, true, true)
      | none => (devices, true, false)

/-- Mirrors the publication block of the dispatch loop in `main.rs` (lines
98-107): when `mqtt_enabled` is set, run `send_config_messages` and then
`send_state_message` on the stored record through `entry(..).and_modify(..)`,
persisting the records' timestamp updates.  Returns the updated registry and
the outbound messages in the order they are handed to the transport. -/
def publishPhase (mqtt_enabled : Bool) (now : Int) (devices : Registry) (device_id : String) :
    Registry × List OutboundMessage :=
  if mqtt_enabled then
    match Registry.find devices device_id with
    | none => (devices, [])
    | some d =>
        let rc := send_config_messages d now
        let rs := send_state_message rc.1 now
        (Registry.insert devices device_id rs.1,
          rc.2.map OutboundMessage.config ++ (rs.2.map OutboundMessage.state).toList)
  else (devices, [])

/-- One advertisement event as consumed by the dispatch loop: the
manufacturer-data map and the advertiser's optional `local_name`. -/
structure Advertisement where
  manufacturer_data : List (Nat × List Nat)
  local_name : Option String
deriving DecidableEq

/-- One iteration of the dispatch loop in `main.rs` (lines 65-109) for a
`ManufacturerDataAdvertisement` event: filter by `is_broodminder`, resolve the
identity (`local_name`, falling back to the sentinel `"00:00:00"`), upsert the
decoded reading, then publish configuration and state messages when enabled.
The final boolean is `false` when the iteration panicked on an out-of-bounds
payload index (killing the dispatch task, so no messages are published). -/
def process_event (mqtt_enabled : Bool) (now : Int) (devices : Registry)
    (ev : Advertisement) : Registry × List OutboundMessage × Bool :=
  match lookupKey ev.manufacturer_data 653 with
  | none => (devices, [], true)
  | some payload =>
      let device_id := ev.local_name.getD "00:00:00"
      let r := upsert devices device_id payload
      if r.2.2 then
        let p := publishPhase mqtt_enabled now r.1 device_id
        (p.1, p.2, true)
      else (r.1, [], false)

/-- An unnormalized fraction of integers with positive denominator, used for
the exact IEEE-754 binary32 model (plain `ℚ` keeps its values in lowest terms
through `Nat.gcd`, which the kernel cannot evaluate inside `decide`; this
representation uses only kernel-reducible integer arithmetic).  Every
operation below preserves `0 < den`. -/
structure Frac where
  num : Int
  den : Int
deriving DecidableEq

/-- The rational value of a fraction. -/
def Frac.toRat (x : Frac) : ℚ := (x.num : ℚ) / (x.den : ℚ)

/-- Exact product of fractions. -/
def Frac.mul (x y : Frac) : Frac := ⟨x.num * y.num, x.den * y.den⟩

/-- Exact difference of fractions. -/
def Frac.sub (x y : Frac) : Frac := ⟨x.num * y.den - y.num * x.den, x.den * y.den⟩

/-- Exact quotient of fractions; keeps the denominator positive when
`0 < y.num` (the only way it is used below). -/
def Frac.div (x y : Frac) : Frac := ⟨x.num * y.den, x.den * y.num⟩

/-- Comparison `x ≤ y` by cross-multiplication (denominators positive). -/
def Frac.ble (x y : Frac) : Bool := decide (x.num * y.den ≤ y.num * x.den)

/-- Comparison `x < y` by cross-multiplication (denominators positive). -/
def Frac.blt (x y : Frac) : Bool := decide (x.num * y.den < y.num * x.den)

/-- Absolute value of a fraction. -/
def Frac.abs (x : Frac) : Frac := ⟨|x.num|, |x.den|⟩

/-- Floor of a fraction with positive denominator. -/
def Frac.floor (x : Frac) : Int := x.num.fdiv x.den

/-- Power of two as a fraction. -/
def pow2F (u : Int) : Frac :=
  if 0 ≤ u then ⟨2 ^ u.toNat, 1⟩ else ⟨1, 2 ^ (-u).toNat⟩

/-- Binade exponent of a positive fraction: the unique `e` with
`2 ^ e ≤ a < 2 ^ (e + 1)`, computed by scanning `e = 40, 39, ..., -40`.
Correct for `2 ^ (-40) ≤ a < 2 ^ 40`, which covers every value arising from
the byte-derived `f32` computations modelled in this file. -/
def exp2F32 (a : Frac) : Int :=
  40 - ((List.range 81).findIdx fun i => Frac.ble (pow2F (40 - (i : Int))) a)

/-- Round a fraction to the nearest IEEE-754 binary32 value (round to
nearest, ties to even).  Models `f32` results of arithmetic on normal-range
values (no overflow or subnormals, which cannot arise at the evaluation
points used in this file). -/
def roundF32 (q : Frac) : Frac :=
  if q.num = 0 then ⟨0, 1⟩
  else
    let a := Frac.abs q
    let u : Int := exp2F32 a - 23
    let scaled : Frac := Frac.mul a (pow2F (-u))
    let n0 : Int := Frac.floor scaled
    let r : Frac := Frac.sub scaled ⟨n0, 1⟩
    let n : Int :=
      if Frac.blt r ⟨1, 2⟩ then n0
      else if Frac.blt ⟨1, 2⟩ r then n0 + 1
      else if n0 % 2 = 0 then n0 else n0 + 1
    let m : Frac := Frac.mul ⟨n, 1⟩ (pow2F u)
    if q.num < 0 then ⟨-m.num, m.den⟩ else m

/-- Binary32 multiplication: exact product, then rounding. -/
def mulF32 (x y : Frac) : Frac := roundF32 (Frac.mul x y)

/-- Binary32 subtraction: exact difference, then rounding. -/
def subF32 (x y : Frac) : Frac := roundF32 (Frac.sub x y)

/-- Binary32 division: exact quotient, then rounding. -/
def divF32 (x y : Frac) : Frac := roundF32 (Frac.div x y)

/-- The `f32` value of the literal `2.204623` in the source (lines 70 and 98):
the decimal rounded to binary32. -/
def lbsPerKgF32 : Frac := roundF32 ⟨2204623, 1000000⟩

/-- The intermediate `(256.0 * data[20] as f32) - data[19] as f32 - 32767.0`
of source lines 69-72 and 96-99, evaluated in binary32 arithmetic (the byte
values themselves are exact in `f32`). -/
def weightRawF32 (b19 b20 : Nat) : Frac :=
  subF32 (subF32 (mulF32 ⟨256, 1⟩ ⟨(b20 : Int), 1⟩) ⟨(b19 : Int), 1⟩) ⟨32767, 1⟩

/-- Value of `realtime_weight_kg` as the source's binary32 arithmetic produces it
(source lines 69 and 96-97). -/
def realtimeWeightKgF32 (b19 b20 : Nat) : Frac :=
  divF32 (weightRawF32 b19 b20) ⟨100, 1⟩

/-- Value of `realtime_weight_lbs` as the source's binary32 arithmetic produces it
(source lines 70-72 and 98-99): `2.204623 * raw / 100.0`, i.e. the
multiplication by `2.204623` happens before the division by `100.0`. -/
def realtimeWeightLbsF32 (b19 b20 : Nat) : Frac :=
  divF32 (mulF32 lbsPerKgF32 (weightRawF32 b19 b20)) ⟨100, 1⟩

/-- The spec's formula `realtime_weight_lbs = realtime_weight_kg * 2.204623`,
evaluated in binary32 arithmetic. -/
def specWeightLbsF32 (b19 b20 : Nat) : Frac :=
  mulF32 (realtimeWeightKgF32 b19 b20) lbsPerKgF32

/-- The 21-byte buffer of spec section 8: bytes `[47,1,1,10,90,0,0,20,30,5]`
padded with zeros so that the unconditional reads of `data[19]` and `data[20]`
are in bounds (`byte[3] = 10`, `byte[9] = 5`, model 47). -/
def bufC8 : List Nat := [47, 1, 1, 10, 90, 0, 0, 20, 30, 5, 0, 0, 0, 0, 0, 0, 0, 0, 0, 0, 0]

/-- The same buffer truncated to exactly its first 10 bytes (the core fields
at offsets 0-9 only). -/
def buf10 : List Nat := [47, 1, 1, 10, 90, 0, 0, 20, 30, 5]

/-- A 21-byte buffer whose model byte is 57 (scale class) and whose other
bytes differ from `bufC8`. -/
def bufB : List Nat := [57, 2, 3, 11, 91, 0, 0, 21, 31, 6, 0, 0, 0, 0, 0, 0, 0, 0, 0, 2, 1]

/-- A concrete resolved scale-class device record used to instantiate the
policy theorems: identity `"47:00:00"`, model 57, both timestamps 0. -/
def devW : BroodminderDevice :=
  { device_id := "47:00:00"
    model := 57
    minor_version := 1
    major_version := 2
    realtime_temp1 := 10
    battery_percent := 90
    elapsed1 := 0
    elapsed2 := 0
    temp1 := 20
    temp2 := 30
    realtime_temp2 := 5
    realtime_weight1 := 1
    realtime_weight2 := 0
    realtime_temperature_c := 0
    realtime_temperature_f := 0
    temperature_c := 0
    temperature_f := 0
    realtime_weight_kg := 0
    realtime_weight_lbs := 0
    last_config_sent := 0
    last_state_sent := 0 }

/-- Variant of `devW` with a model that is neither 47 nor 57 (no eligible channel). -/
def devM0 : BroodminderDevice := { devW with model := 0 }

/-- Variant of `devW` carrying the unresolved sentinel identity. -/
def devU : BroodminderDevice := { devW with device_id := "00:00:00" }

/-- The record `build_broodminder_device bufC8` produces, written out with its
derived rational values. -/
def devC8 : BroodminderDevice :=
  { device_id := "(unknown)"
    model := 47
    minor_version := 1
    major_version := 1
    realtime_temp1 := 10
    battery_percent := 90
    elapsed1 := 0
    elapsed2 := 0
    temp1 := 20
    temp2 := 30
    realtime_temp2 := 5
    realtime_weight1 := 0
    realtime_weight2 := 0
    realtime_temperature_c := -371 / 10
    realtime_temperature_f := -1739 / 50
    temperature_c := 27
    temperature_f := 403 / 5
    realtime_weight_kg := -32767 / 100
    realtime_weight_lbs := -72238881841 / 100000000
    last_config_sent := 0
    last_state_sent := 0 }

theorem build_isSome_iff (data : List Nat) :
    (build_broodminder_device data).isSome ↔ 21 ≤ data.length := by
  unfold build_broodminder_device
  split
  · rename_i h
    simpa using by omega
  · rename_i h
    simp only [Option.isSome_none, Bool.false_eq_true, false_iff]
    omega

theorem build_eq_none (data : List Nat) (h : data.length < 21) :
    build_broodminder_device data = none := by
  unfold build_broodminder_device
  split
  · omega
  · rfl

theorem update_snd_false_of_short (d : BroodminderDevice) (data : List Nat)
    (h : data.length < 21) : (update d data).2 = false := by
  unfold update
  repeat' split
  all_goals first | rfl | (exfalso; omega)

theorem get_eq_getD (data : List Nat) (i : Nat) (h : i < data.length) :
    data.get ⟨i, h⟩ = data.getD i 0 := by
  simp [List.getD_eq_getElem?_getD, List.getElem?_eq_getElem h]

theorem update_eq_of_length (d : BroodminderDevice) (data : List Nat) (h : 21 ≤ data.length) :
    update d data =
      ({ d with
          realtime_temp1 := data.getD 3 0
          battery_percent := data.getD 4 0
          elapsed1 := data.getD 5 0
          elapsed2 := data.getD 6 0
          temp1 := data.getD 7 0
          temp2 := data.getD 8 0
          realtime_temp2 := data.getD 9 0
          realtime_weight1 := data.getD 19 0
          realtime_weight2 := data.getD 20 0
          realtime_temperature_c :=
            (256 * (data.getD 9 0 : ℚ) + (data.getD 3 0 : ℚ) - 5000) / 100
          realtime_temperature_f :=
            ((256 * (data.getD 9 0 : ℚ) + (data.getD 3 0 : ℚ) - 5000) / 100) * 9 / 5 + 32
          temperature_c :=
            (256 * (data.getD 8 0 : ℚ) + (data.getD 7 0 : ℚ) - 5000) / 100
          temperature_f :=
            ((256 * (data.getD 8 0 : ℚ) + (data.getD 7 0 : ℚ) - 5000) / 100) * 9 / 5 + 32
          realtime_weight_kg :=
            (256 * (data.getD 20 0 : ℚ) - (data.getD 19 0 : ℚ) - 32767) / 100
          realtime_weight_lbs :=
            2.204623 * (256 * (data.getD 20 0 : ℚ) - (data.getD 19 0 : ℚ) - 32767) / 100 },
        true) := by
  have h3 : 3 < data.length := by omega
  have h4 : 4 < data.length := by omega
  have h5 : 5 < data.length := by omega
  have h6 : 6 < data.length := by omega
  have h7 : 7 < data.length := by omega
  have h8 : 8 < data.length := by omega
  have h9 : 9 < data.length := by omega
  have h19 : 19 < data.length := by omega
  have h20 : 20 < data.length := by omega
  simp only [update, dif_pos h3, dif_pos h4, dif_pos h5, dif_pos h6, dif_pos h7, dif_pos h8,
    dif_pos h9, dif_pos h19, dif_pos h20, setRealtimeTemp1, setBatteryPercent, setElapsed1,
    setElapsed2, setTemp1, setTemp2, setRealtimeTemp2, setRealtimeWeight1, setRealtimeWeight2,
    setDerived, get_eq_getD data 3 h3, get_eq_getD data 4 h4, get_eq_getD data 5 h5,
    get_eq_getD data 6 h6, get_eq_getD data 7 h7, get_eq_getD data 8 h8, get_eq_getD data 9 h9,
    get_eq_getD data 19 h19, get_eq_getD data 20 h20]

theorem Registry.find_insert_self (r : Registry) (k : String) (v : BroodminderDevice) :
    Registry.find (Registry.insert r k v) k = some v := by
  induction r with
  | nil => simp [Registry.insert, Registry.find]
  | cons hd tl ih =>
      obtain ⟨k', w⟩ := hd
      by_cases hk : k' = k
      · simp [Registry.insert, Registry.find, hk]
      · simp [Registry.insert, Registry.find, hk, ih]

theorem build_eq_of_length (data : List Nat) (h : 21 ≤ data.length) :
    build_broodminder_device data = some
      { device_id := "(unknown)"
        model := data.getD 0 0
        minor_version := data.getD 1 0
        major_version := data.getD 2 0
        realtime_temp1 := data.getD 3 0
        battery_percent := data.getD 4 0
        elapsed1 := data.getD 5 0
        elapsed2 := data.getD 6 0
        temp1 := data.getD 7 0
        temp2 := data.getD 8 0
        realtime_temp2 := data.getD 9 0
        realtime_weight1 := data.getD 19 0
        realtime_weight2 := data.getD 20 0
        realtime_temperature_c :=
          (256 * (data.getD 9 0 : ℚ) + (data.getD 3 0 : ℚ) - 5000) / 100
        realtime_temperature_f :=
          ((256 * (data.getD 9 0 : ℚ) + (data.getD 3 0 : ℚ) - 5000) / 100) * 9 / 5 + 32
        temperature_c :=
          (256 * (data.getD 8 0 : ℚ) + (data.getD 7 0 : ℚ) - 5000) / 100
        temperature_f :=
          ((256 * (data.getD 8 0 : ℚ) + (data.getD 7 0 : ℚ) - 5000) / 100) * 9 / 5 + 32
        realtime_weight_kg :=
          (256 * (data.getD 20 0 : ℚ) - (data.getD 19 0 : ℚ) - 32767) / 100
        realtime_weight_lbs :=
          2.204623 * (256 * (data.getD 20 0 : ℚ) - (data.getD 19 0 : ℚ) - 32767) / 100
        last_config_sent := 0
        last_state_sent := 0 } := by
  have h0 : 0 < data.length := by omega
  have h1 : 1 < data.length := by omega
  have h2 : 2 < data.length := by omega
  have h3 : 3 < data.length := by omega
  have h4 : 4 < data.length := by omega
  have h5 : 5 < data.length := by omega
  have h6 : 6 < data.length := by omega
  have h7 : 7 < data.length := by omega
  have h8 : 8 < data.length := by omega
  have h9 : 9 < data.length := by omega
  have h19 : 19 < data.length := by omega
  have h20 : 20 < data.length := by omega
  unfold build_broodminder_device
  rw [dif_pos h20]
  simp only [get_eq_getD data 0 h0, get_eq_getD data 1 h1, get_eq_getD data 2 h2,
    get_eq_getD data 3 h3, get_eq_getD data 4 h4, get_eq_getD data 5 h5,
    get_eq_getD data 6 h6, get_eq_getD data 7 h7, get_eq_getD data 8 h8,
    get_eq_getD data 9 h9, get_eq_getD data 19 h19, get_eq_getD data 20 h20]

theorem send_state_message_sentinel (d : BroodminderDevice) (now : Int)
    (h : d.device_id = "00:00:00") : send_state_message d now = (d, none) := by
  unfold send_state_message
  rw [if_pos h]

theorem send_config_messages_sentinel (d : BroodminderDevice) (now : Int)
    (h : d.device_id = "00:00:00") : send_config_messages d now = (d, []) := by
  unfold send_config_messages
  rw [if_pos h]

theorem publishPhase_sentinel (mqtt : Bool) (now : Int) (devices : Registry)
    (d : BroodminderDevice) (hfind : Registry.find devices "00:00:00" = some d)
    (hid : d.device_id = "00:00:00") :
    (publishPhase mqtt now devices "00:00:00").2 = []
    ∧ Registry.find (publishPhase mqtt now devices "00:00:00").1 "00:00:00" = some d := by
  unfold publishPhase
  cases mqtt with
  | false => simpa using hfind
  | true =>
      rw [hfind]
      simp only [send_config_messages_sentinel d now hid,
        send_state_message_sentinel d now hid]
      simpa using Registry.find_insert_self devices "00:00:00" d

/-- C1, counterexample: the claim says decode fails only for buffers shorter
than 10 bytes (with extra length needed only when the optional weight fields
are extracted), so it predicts success on this 10-byte, model-47 buffer; the
code reads `data[19]` and `data[20]` unconditionally and fails on it. -/
theorem c1_counterexample :
    buf10.length = 10 ∧ buf10.getD 0 0 = 47 ∧ build_broodminder_device buf10 = none := by
  refine ⟨rfl, rfl, ?_⟩
  decide

/-- C1 (amended): decode fails exactly when the buffer is shorter than 21
bytes, because the weight bytes at offsets 19-20 are read for every model;
a dispatch iteration whose payload is shorter than 21 bytes publishes no
message and ends with the panic flag; when the resolved identity was unseen
the registry is unchanged, and when it was already registered the stored
record receives exactly the in-bounds assignments of `update` made before the
failing read. -/
theorem c1_decode_min_length :
    (∀ data : List Nat, (build_broodminder_device data).isSome ↔ 21 ≤ data.length)
    ∧ (∀ (mqtt : Bool) (now : Int) (devices : Registry) (ev : Advertisement)
        (payload : List Nat),
        lookupKey ev.manufacturer_data 653 = some payload → payload.length < 21 →
        (process_event mqtt now devices ev).2 = ([], false)
        ∧ (Registry.find devices (ev.local_name.getD "00:00:00") = none →
            (process_event mqtt now devices ev).1 = devices)
        ∧ (∀ d, Registry.find devices (ev.local_name.getD "00:00:00") = some d →
            (process_event mqtt now devices ev).1
              = Registry.insert devices (ev.local_name.getD "00:00:00")
                  (update d payload).1)) := by
  constructor
  · exact build_isSome_iff
  · intro mqtt now devices ev payload hlk hlen
    have hb := build_eq_none payload hlen
    rcases hfind : Registry.find devices (ev.local_name.getD "00:00:00") with _ | d
    · have hup : upsert devices (ev.local_name.getD "00:00:00") payload
          = (devices, true, false) := by
        unfold upsert
        rw [hfind, hb]
      have hpe : process_event mqtt now devices ev = (devices, [], false) := by
        unfold process_event
        rw [hlk]
        simp only [hup, Bool.false_eq_true, if_false]
      exact ⟨by rw [hpe], fun _ => by rw [hpe], fun d hd => Option.noConfusion hd⟩
    · have hu : (update d payload).2 = false := update_snd_false_of_short d payload hlen
      have hup : upsert devices (ev.local_name.getD "00:00:00") payload
          = (Registry.insert devices (ev.local_name.getD "00:00:00") (update d payload).1,
              false, (update d payload).2) := by
        unfold upsert
        rw [hfind]
      have hpe : process_event mqtt now devices ev
          = (Registry.insert devices (ev.local_name.getD "00:00:00") (update d payload).1,
              [], false) := by
        unfold process_event
        rw [hlk]
        simp only [hup, hu, Bool.false_eq_true, if_false]
      refine ⟨by rw [hpe], fun hc => Option.noConfusion hc, fun d' hd' => ?_⟩
      injection hd' with hd'
      subst hd'
      rw [hpe]

/-- C1 witness: a concrete length-10 payload from an unseen identity leaves
the registry empty, publishes nothing, and kills the dispatch task. -/
theorem c1_decode_min_length_witness :
    (process_event true 0 [] ⟨[(653, buf10)], some "47:11:11"⟩).2 = ([], false)
    ∧ (process_event true 0 [] ⟨[(653, buf10)], some "47:11:11"⟩).1 = [] := by
  have h := c1_decode_min_length.2 true 0 [] ⟨[(653, buf10)], some "47:11:11"⟩ buf10
    (by rfl) (by decide)
  exact ⟨h.1, h.2.1 rfl⟩

/-- C2, counterexample: at `byte[19] = 1`, `byte[20] = 0` the source's `f32`
computation `2.204623 * raw / 100.0` rounds to `-11835980 / 16384`
(`-722.410888671875`), while the claimed formula
`realtime_weight_kg * 2.204623`, evaluated in the same binary32 arithmetic,
rounds to `-11835979 / 16384` (`-722.4108276367188`): the two orders of
operations do not produce the same `f32` value. -/
theorem c2_counterexample :
    realtimeWeightLbsF32 1 0 = ⟨-11835980, 16384⟩
    ∧ specWeightLbsF32 1 0 = ⟨-11835979, 16384⟩
    ∧ Frac.toRat (realtimeWeightLbsF32 1 0) ≠ Frac.toRat (specWeightLbsF32 1 0) := by
  have h1 : realtimeWeightLbsF32 1 0 = ⟨-11835980, 16384⟩ := by decide
  have h2 : specWeightLbsF32 1 0 = ⟨-11835979, 16384⟩ := by decide
  refine ⟨h1, h2, ?_⟩
  rw [h1, h2]
  norm_num [Frac.toRat]

/-- C2 (amended): under exact (rational) evaluation of the source's `f32`
expressions, every decoded buffer satisfies the four temperature formulas and
the kg formula as claimed; `realtime_weight_lbs` is computed in the order
`2.204623 * (256*byte[20] - byte[19] - 32767) / 100` (multiplication first),
which equals `realtime_weight_kg * 2.204623` exactly in rational arithmetic
but not bit-for-bit in binary32; the weight fields are computed for every
model, not only for scales. -/
theorem c2_formulas :
    ∀ (data : List Nat) (b : BroodminderDevice),
      build_broodminder_device data = some b →
      b.realtime_temperature_c
          = (256 * (data.getD 9 0 : ℚ) + (data.getD 3 0 : ℚ) - 5000) / 100
      ∧ b.realtime_temperature_f = b.realtime_temperature_c * 9 / 5 + 32
      ∧ b.temperature_c = (256 * (data.getD 8 0 : ℚ) + (data.getD 7 0 : ℚ) - 5000) / 100
      ∧ b.temperature_f = b.temperature_c * 9 / 5 + 32
      ∧ b.realtime_weight_kg
          = (256 * (data.getD 20 0 : ℚ) - (data.getD 19 0 : ℚ) - 32767) / 100
      ∧ b.realtime_weight_lbs
          = 2.204623 * (256 * (data.getD 20 0 : ℚ) - (data.getD 19 0 : ℚ) - 32767) / 100
      ∧ b.realtime_weight_lbs = b.realtime_weight_kg * 2.204623 := by
  intro data b hb
  have hlen : 21 ≤ data.length := by
    have := (build_isSome_iff data).mp (by rw [hb]; rfl)
    exact this
  rw [build_eq_of_length data hlen] at hb
  injection hb with hb
  subst hb
  refine ⟨rfl, rfl, rfl, rfl, rfl, rfl, ?_⟩
  show 2.204623 * (256 * (data.getD 20 0 : ℚ) - (data.getD 19 0 : ℚ) - 32767) / 100
      = (256 * (data.getD 20 0 : ℚ) - (data.getD 19 0 : ℚ) - 32767) / 100 * 2.204623
  ring

/-- C2 witness: the formulas evaluated on the concrete buffer `bufC8`. -/
theorem c2_formulas_witness :
    build_broodminder_device bufC8 = some devC8
    ∧ devC8.realtime_temperature_c = -371 / 10
    ∧ devC8.realtime_weight_lbs = devC8.realtime_weight_kg * 2.204623 := by
  have hb : build_broodminder_device bufC8 = some devC8 := by
    rw [build_eq_of_length bufC8 (by decide)]
    norm_num [bufC8, devC8]
  exact ⟨hb, rfl, (c2_formulas bufC8 devC8 hb).2.2.2.2.2.2⟩

/-- C3, counterexample: upserting identity `"47:11:11"` first with a model-47
buffer and then with a model-57 buffer leaves the stored record's `model` at
47: `BroodminderDevice::update` never touches `model`, `minor_version` or
`major_version`, contradicting the claim that a second upsert overwrites
them. -/
theorem c3_counterexample :
    (Registry.find (upsert (upsert [] "47:11:11" bufC8).1 "47:11:11" bufB).1
        "47:11:11").map BroodminderDevice.model = some 47
    ∧ (Registry.find (upsert (upsert [] "47:11:11" bufC8).1 "47:11:11" bufB).1
        "47:11:11").map BroodminderDevice.model ≠ some (bufB.getD 0 0) := by
  constructor
  · decide
  · decide

/-- C3 (amended): an upsert on an unseen identity creates a record with both
timestamps 0 and the freshly decoded reading (its `device_id` overwritten
with the identity); a second upsert on the same identity keeps the identity,
both timestamps, and also `model`, `minor_version` and `major_version` (which
`update` never assigns), while overwriting the remaining raw byte fields and
the derived fields from the new buffer. -/
theorem c3_upsert :
    (∀ (r : Registry) (id : String) (data : List Nat),
      Registry.find r id = none → 21 ≤ data.length →
      ∃ b, build_broodminder_device data = some b
        ∧ Registry.find (upsert r id data).1 id = some { b with device_id := id }
        ∧ (upsert r id data).2.1 = true
        ∧ b.last_config_sent = 0 ∧ b.last_state_sent = 0)
    ∧ (∀ (r : Registry) (id : String) (data : List Nat) (d : BroodminderDevice),
      Registry.find r id = some d → 21 ≤ data.length →
      Registry.find (upsert r id data).1 id = some ((update d data).1)
      ∧ (upsert r id data).2.1 = false
      ∧ (update d data).1.device_id = d.device_id
      ∧ (update d data).1.last_config_sent = d.last_config_sent
      ∧ (update d data).1.last_state_sent = d.last_state_sent
      ∧ (update d data).1.model = d.model
      ∧ (update d data).1.minor_version = d.minor_version
      ∧ (update d data).1.major_version = d.major_version
      ∧ (update d data).1.realtime_temp1 = data.getD 3 0
      ∧ (update d data).1.battery_percent = data.getD 4 0
      ∧ (update d data).1.elapsed1 = data.getD 5 0
      ∧ (update d data).1.elapsed2 = data.getD 6 0
      ∧ (update d data).1.temp1 = data.getD 7 0
      ∧ (update d data).1.temp2 = data.getD 8 0
      ∧ (update d data).1.realtime_temp2 = data.getD 9 0
      ∧ (update d data).1.realtime_weight1 = data.getD 19 0
      ∧ (update d data).1.realtime_weight2 = data.getD 20 0
      ∧ (update d data).1.realtime_temperature_c
          = (256 * (data.getD 9 0 : ℚ) + (data.getD 3 0 : ℚ) - 5000) / 100
      ∧ (update d data).1.realtime_weight_lbs
          = 2.204623 * (256 * (data.getD 20 0 : ℚ) - (data.getD 19 0 : ℚ) - 32767) / 100) := by
  constructor
  · intro r id data hfind hlen
    obtain ⟨b, hb⟩ := Option.isSome_iff_exists.mp ((build_isSome_iff data).mpr hlen)
    refine ⟨b, hb, ?_, ?_, ?_, ?_⟩
    · unfold upsert
      rw [hfind, hb]
      exact Registry.find_insert_self r id { b with device_id := id }
    · unfold upsert
      rw [hfind, hb]
    · rw [build_eq_of_length data hlen] at hb
      injection hb with hb
      subst hb
      rfl
    · rw [build_eq_of_length data hlen] at hb
      injection hb with hb
      subst hb
      rfl
  · intro r id data d hfind hlen
    have hfi : Registry.find (upsert r id data).1 id = some ((update d data).1) := by
      unfold upsert
      rw [hfind]
      exact Registry.find_insert_self r id (update d data).1
    have hsn : (upsert r id data).2.1 = false := by
      unfold upsert
      rw [hfind]
    refine ⟨hfi, hsn, ?_, ?_, ?_, ?_, ?_, ?_, ?_, ?_, ?_, ?_, ?_, ?_, ?_, ?_, ?_, ?_, ?_⟩
    all_goals rw [update_eq_of_length d data hlen]

/-- C3 witness: the amended upsert facts applied to the concrete registry
holding `devW` under its identity and the model-57 buffer `bufB`. -/
theorem c3_upsert_witness :
    Registry.find (upsert [("47:00:00", devW)] "47:00:00" bufB).1 "47:00:00"
      = some ((update devW bufB).1)
    ∧ (update devW bufB).1.model = devW.model
    ∧ (update devW bufB).1.last_state_sent = devW.last_state_sent := by
  have h := c3_upsert.2 [("47:00:00", devW)] "47:00:00" bufB devW rfl (by decide)
  exact ⟨h.1, h.2.2.2.2.2.1, h.2.2.2.2.1⟩

/-- C4: for a resolved device with `last_state_sent = T`, a state evaluation
at `now` emits a message and sets `last_state_sent := now` exactly when
`now - T > 30000`; in particular it emits and advances at `now = T + 30001`
and does nothing at `now = T + 29999`. -/
theorem c4_state_window :
    ∀ (d : BroodminderDevice) (now : Int), d.device_id ≠ "00:00:00" →
      ((send_state_message d now).2.isSome ↔ now - d.last_state_sent > 30000)
      ∧ (now - d.last_state_sent > 30000 →
          (send_state_message d now).1.last_state_sent = now
          ∧ (send_state_message d now).2.isSome = true)
      ∧ (¬ now - d.last_state_sent > 30000 → send_state_message d now = (d, none))
      ∧ ((send_state_message d (d.last_state_sent + 30001)).2.isSome = true
          ∧ (send_state_message d (d.last_state_sent + 30001)).1.last_state_sent
              = d.last_state_sent + 30001)
      ∧ send_state_message d (d.last_state_sent + 29999) = (d, none) := by
  intro d now hid
  have hmain : ∀ t : Int,
      ((send_state_message d t).2.isSome ↔ t - d.last_state_sent > 30000)
      ∧ (t - d.last_state_sent > 30000 →
          (send_state_message d t).1.last_state_sent = t
          ∧ (send_state_message d t).2.isSome = true)
      ∧ (¬ t - d.last_state_sent > 30000 → send_state_message d t = (d, none)) := by
    intro t
    unfold send_state_message
    rw [if_neg hid]
    by_cases h : t - d.last_state_sent > 30000
    · rw [if_pos h]
      exact ⟨by simpa using h, fun _ => ⟨rfl, rfl⟩, fun hc => absurd h hc⟩
    · rw [if_neg h]
      exact ⟨by simpa using h, fun hc => absurd hc h, fun _ => rfl⟩
  refine ⟨(hmain now).1, (hmain now).2.1, (hmain now).2.2, ?_, ?_⟩
  · have h := (hmain (d.last_state_sent + 30001)).2.1 (by omega)
    exact ⟨h.2, h.1⟩
  · exact (hmain (d.last_state_sent + 29999)).2.2 (by omega)

/-- C4 witness: the state window evaluated on the concrete device `devW`
(timestamps 0) at `now = 40000`. -/
theorem c4_state_window_witness :
    ((send_state_message devW 40000).2.isSome ↔ (40000 : Int) - devW.last_state_sent > 30000)
    ∧ (send_state_message devW (devW.last_state_sent + 29999)) = (devW, none) := by
  have h := c4_state_window devW 40000 (by decide)
  exact ⟨h.1, h.2.2.2.2⟩

/-- C5: for a resolved device whose configuration window has elapsed
(`now - last_config_sent > 3600000`), the evaluation sets
`last_config_sent := now` unconditionally — also when the model matches no
eligible channel and the message list is empty — and leaves
`last_state_sent` untouched; an evaluation that skips the device (unresolved
sentinel identity, or window not elapsed) returns the record completely
unchanged. -/
theorem c5_config_timestamp :
    ∀ (d : BroodminderDevice) (now : Int),
      (d.device_id ≠ "00:00:00" → now - d.last_config_sent > 3600000 →
        (send_config_messages d now).1.last_config_sent = now
        ∧ (send_config_messages d now).1.last_state_sent = d.last_state_sent
        ∧ (d.model ≠ 47 → d.model ≠ 57 → (send_config_messages d now).2 = []))
      ∧ (d.device_id = "00:00:00" → send_config_messages d now = (d, []))
      ∧ (¬ now - d.last_config_sent > 3600000 → send_config_messages d now = (d, [])) := by
  intro d now
  refine ⟨fun hid hw => ?_, fun hid => send_config_messages_sentinel d now hid, fun hw => ?_⟩
  · unfold send_config_messages
    rw [if_neg hid, if_pos hw]
    refine ⟨rfl, rfl, fun h47 h57 => ?_⟩
    simp [h47, h57]
  · unfold send_config_messages
    by_cases hid : d.device_id = "00:00:00"
    · rw [if_pos hid]
    · rw [if_neg hid, if_neg hw]

/-- C5 witness: the concrete device `devM0` (model 0, no eligible channel,
timestamps 0) evaluated at `now = 4000000`: the timestamp still advances and
the message list is empty; and at `now = 1000` the record is unchanged. -/
theorem c5_config_timestamp_witness :
    (send_config_messages devM0 4000000).1.last_config_sent = 4000000
    ∧ (send_config_messages devM0 4000000).2 = []
    ∧ send_config_messages devM0 1000 = (devM0, []) := by
  have h := c5_config_timestamp devM0 4000000
  have h1 := h.1 (by decide) (by decide)
  have h2 := (c5_config_timestamp devM0 1000).2.2 (by decide)
  exact ⟨h1.1, h1.2.2 (by decide) (by decide), h2⟩

/-- C6: a device carrying the unresolved sentinel identity `"00:00:00"` never
produces a configuration or state message and never has a timestamp advanced,
for every current time. -/
theorem c6_sentinel :
    ∀ (d : BroodminderDevice) (now : Int), d.device_id = "00:00:00" →
      send_config_messages d now = (d, []) ∧ send_state_message d now = (d, none) := by
  intro d now h
  exact ⟨send_config_messages_sentinel d now h, send_state_message_sentinel d now h⟩

/-- C6 witness: the sentinel device `devU` at a time far beyond both windows. -/
theorem c6_sentinel_witness :
    send_config_messages devU 999999999999 = (devU, [])
    ∧ send_state_message devU 999999999999 = (devU, none) :=
  c6_sentinel devU 999999999999 rfl

/-- C7, counterexample: for the concrete resolved device `devW` with identity
`"47:00:00"`, the state topic actually published is
`homeassistant/sensor/BM470000/state`, not the claimed
`homeassistant/sensor/470000/state`: the code prepends `"BM"` to the
colon-stripped identity in every topic. -/
theorem c7_counterexample :
    (send_state_message devW 40000).2.map StateMessage.topic
      = some "homeassistant/sensor/BM470000/state"
    ∧ (send_state_message devW 40000).2.map StateMessage.topic
      ≠ some "homeassistant/sensor/470000/state" := by
  constructor
  · decide
  · decide

/-- C7 (amended): for every resolved device the published topics are
`homeassistant/sensor/<normalized-id>Temp/config` and
`homeassistant/sensor/<normalized-id>Weight/config` for configuration
messages and `homeassistant/sensor/<normalized-id>/state` for state
messages, where `<normalized-id>` is `"BM"` followed by the identity with
the `':'` separators stripped. -/
theorem c7_topics :
    ∀ (d : BroodminderDevice) (now : Int), d.device_id ≠ "00:00:00" →
      (∀ m ∈ (send_config_messages d now).2,
          m.topic = "homeassistant/sensor/BM" ++ stripColons d.device_id ++ "Temp/config"
        ∨ m.topic = "homeassistant/sensor/BM" ++ stripColons d.device_id ++ "Weight/config")
      ∧ (d.model = 57 → now - d.last_config_sent > 3600000 →
          (send_config_messages d now).2.map ConfigMessage.topic
            = ["homeassistant/sensor/BM" ++ stripColons d.device_id ++ "Temp/config",
               "homeassistant/sensor/BM" ++ stripColons d.device_id ++ "Weight/config"])
      ∧ (∀ m, (send_state_message d now).2 = some m →
          m.topic = "homeassistant/sensor/BM" ++ stripColons d.device_id ++ "/state") := by
  intro d now hid
  refine ⟨?_, ?_, ?_⟩
  · intro m hm
    unfold send_config_messages at hm
    rw [if_neg hid] at hm
    by_cases hw : now - d.last_config_sent > 3600000
    · rw [if_pos hw] at hm
      simp only [List.mem_append] at hm
      rcases hm with hm | hm
      · by_cases h47 : d.model = 47 ∨ d.model = 57
        · rw [if_pos h47] at hm
          simp only [List.mem_singleton] at hm
          subst hm
          left
          rfl
        · rw [if_neg h47] at hm
          exact absurd hm (List.not_mem_nil m)
      · by_cases h57 : d.model = 57
        · rw [if_pos h57] at hm
          simp only [List.mem_singleton] at hm
          subst hm
          right
          rfl
        · rw [if_neg h57] at hm
          exact absurd hm (List.not_mem_nil m)
    · rw [if_neg hw] at hm
      exact absurd hm (List.not_mem_nil m)
  · intro h57 hw
    unfold send_config_messages
    rw [if_neg hid, if_pos hw, h57]
    simp [tempConfigMessage, weightConfigMessage]
  · intro m hm
    unfold send_state_message at hm
    rw [if_neg hid] at hm
    by_cases hw : now - d.last_state_sent > 30000
    · rw [if_pos hw] at hm
      injection hm with hm
      subst hm
      rfl
    · rw [if_neg hw] at hm
      exact Option.noConfusion hm

/-- C7 witness: the topics for the concrete scale-class device `devW` at a
time when both windows are open. -/
theorem c7_topics_witness :
    (send_config_messages devW 4000000).2.map ConfigMessage.topic
      = ["homeassistant/sensor/BM" ++ stripColons devW.device_id ++ "Temp/config",
         "homeassistant/sensor/BM" ++ stripColons devW.device_id ++ "Weight/config"]
    ∧ (∀ m, (send_state_message devW 4000000).2 = some m →
        m.topic = "homeassistant/sensor/BM" ++ stripColons devW.device_id ++ "/state") := by
  have h := c7_topics devW 4000000 (by decide)
  exact ⟨h.2.1 rfl (by decide), h.2.2⟩

/-- C8, counterexample: for the spec's buffer (byte[9] = 5, byte[3] = 10,
padded to the 21 bytes decode actually requires), `realtime_temperature_c`
equals `(256*5 + 10 - 5000) / 100 = -37.1`, not the claimed `-37.5`: the
spec's own arithmetic example is miscalculated. -/
theorem c8_counterexample :
    (build_broodminder_device bufC8).map BroodminderDevice.realtime_temperature_c
      = some ((256 * 5 + 10 - 5000 : ℚ) / 100)
    ∧ ((256 * 5 + 10 - 5000 : ℚ) / 100 ≠ -37.5) := by
  constructor
  · rw [build_eq_of_length bufC8 (by decide)]
    norm_num [bufC8]
  · norm_num

/-- C8 (amended): for the spec's buffer, `realtime_temperature_c` equals
`(256*5 + 10 - 5000) / 100 = -37.1`. -/
theorem c8_amended :
    (build_broodminder_device bufC8).map BroodminderDevice.realtime_temperature_c
      = some (-37.1) := by
  rw [build_eq_of_length bufC8 (by decide)]
  norm_num [bufC8]

/-- C9: for every scale-class (model 57) resolved device, the weight
configuration message declares `unit_of_measurement = "kg"` while its
`value_template` extracts the state key `weight_lbs`; the state message
publishes `realtime_weight_lbs` under `weight_lbs`; and for every decoded
buffer `realtime_weight_lbs = realtime_weight_kg * 2.204623` (exact rational
arithmetic), i.e. the published value is in pounds while the declared unit is
kilograms, off by the factor 2.204623. -/
theorem c9_weight_units :
    (∀ (d : BroodminderDevice) (now : Int), d.device_id ≠ "00:00:00" → d.model = 57 →
      (now - d.last_config_sent > 3600000 →
        ∃ m ∈ (send_config_messages d now).2,
          m.unit_of_measurement = "kg"
          ∧ m.value_template = "\x7b\x7b value_json.weight_lbs \x7d\x7d")
      ∧ (∀ m, (send_state_message d now).2 = some m →
          m.weight_lbs = some d.realtime_weight_lbs))
    ∧ (∀ (data : List Nat) (b : BroodminderDevice),
        build_broodminder_device data = some b →
        b.realtime_weight_lbs = b.realtime_weight_kg * 2.204623) := by
  constructor
  · intro d now hid h57
    constructor
    · intro hw
      refine ⟨weightConfigMessage d.device_id (stripColons d.device_id), ?_, rfl, rfl⟩
      unfold send_config_messages
      rw [if_neg hid, if_pos hw, h57]
      simp
    · intro m hm
      unfold send_state_message at hm
      rw [if_neg hid] at hm
      by_cases hw : now - d.last_state_sent > 30000
      · rw [if_pos hw] at hm
        injection hm with hm
        subst hm
        simp [h57]
      · rw [if_neg hw] at hm
        exact Option.noConfusion hm
  · intro data b hb
    have hlen : 21 ≤ data.length := (build_isSome_iff data).mp (by rw [hb]; rfl)
    rw [build_eq_of_length data hlen] at hb
    injection hb with hb
    subst hb
    show 2.204623 * (256 * (data.getD 20 0 : ℚ) - (data.getD 19 0 : ℚ) - 32767) / 100
        = (256 * (data.getD 20 0 : ℚ) - (data.getD 19 0 : ℚ) - 32767) / 100 * 2.204623
    ring

/-- C9 witness: the unit facts for the concrete scale-class device `devW` at
`now = 4000000` (both windows open), plus the factor on `bufB`. -/
theorem c9_weight_units_witness :
    (∃ m ∈ (send_config_messages devW 4000000).2,
        m.unit_of_measurement = "kg"
        ∧ m.value_template = "\x7b\x7b value_json.weight_lbs \x7d\x7d")
    ∧ (∀ m, (send_state_message devW 4000000).2 = some m →
        m.weight_lbs = some devW.realtime_weight_lbs) := by
  have h := (c9_weight_units.1 devW 4000000 (by decide) rfl)
  exact ⟨h.1 (by decide), h.2⟩

theorem publishPhase_find_isSome (mqtt : Bool) (now : Int) (devices : Registry)
    (key : String) (h : (Registry.find devices key).isSome = true) :
    (Registry.find (publishPhase mqtt now devices key).1 key).isSome = true := by
  cases mqtt with
  | false =>
      show (Registry.find devices key).isSome = true
      exact h
  | true =>
      rcases hf : Registry.find devices key with _ | d
      · rw [hf] at h
        exact absurd h (by simp)
      · unfold publishPhase
        rw [hf]
        show (Registry.find (Registry.insert devices key
          (send_state_message (send_config_messages d now).1 now).1) key).isSome = true
        rw [Registry.find_insert_self]
        rfl

/-- C10: a recognized advertisement without a resolvable `local_name` is
keyed by the sentinel `"00:00:00"`: the dispatch iteration keeps exactly one
shared record under that key (creating it from the decoded reading on first
sighting, overwriting its reading fields through `update` on every later
sighting, whichever physical device broadcast it), and publishes nothing for
it. -/
theorem c10_unresolved :
    ∀ (mqtt : Bool) (now : Int) (devices : Registry) (ev : Advertisement)
      (payload : List Nat),
      lookupKey ev.manufacturer_data 653 = some payload → ev.local_name = none →
      21 ≤ payload.length →
      (Registry.find (process_event mqtt now devices ev).1 "00:00:00").isSome = true
      ∧ (Registry.find devices "00:00:00" = none →
          (process_event mqtt now devices ev).2.1 = []
          ∧ ∃ b, build_broodminder_device payload = some b
              ∧ Registry.find (process_event mqtt now devices ev).1 "00:00:00"
                  = some { b with device_id := "00:00:00" })
      ∧ (∀ d, Registry.find devices "00:00:00" = some d → d.device_id = "00:00:00" →
          (process_event mqtt now devices ev).2.1 = []
          ∧ Registry.find (process_event mqtt now devices ev).1 "00:00:00"
              = some ((update d payload).1)) := by
  intro mqtt now devices ev payload hlk hname hlen
  rcases hfind : Registry.find devices "00:00:00" with _ | d
  · obtain ⟨b, hb⟩ := Option.isSome_iff_exists.mp ((build_isSome_iff payload).mpr hlen)
    have hup : upsert devices "00:00:00" payload
        = (Registry.insert devices "00:00:00" { b with device_id := "00:00:00" },
            true, true) := by
      unfold upsert
      rw [hfind, hb]
    have hpe : process_event mqtt now devices ev
        = ((publishPhase mqtt now
              (Registry.insert devices "00:00:00" { b with device_id := "00:00:00" })
              "00:00:00").1,
           (publishPhase mqtt now
              (Registry.insert devices "00:00:00" { b with device_id := "00:00:00" })
              "00:00:00").2, true) := by
      unfold process_event
      rw [hlk, hname]
      simp only [Option.getD_none, hup, if_true]
    have hps := publishPhase_sentinel mqtt now
      (Registry.insert devices "00:00:00" { b with device_id := "00:00:00" })
      { b with device_id := "00:00:00" }
      (Registry.find_insert_self devices "00:00:00" { b with device_id := "00:00:00" }) rfl
    refine ⟨?_, fun _ => ⟨?_, b, hb, ?_⟩, fun d' hd' => Option.noConfusion hd'⟩
    · rw [hpe, hps.2]
      rfl
    · rw [hpe]
      exact hps.1
    · rw [hpe]
      exact hps.2
  · have hok : (update d payload).2 = true := by
      rw [update_eq_of_length d payload hlen]
    have hup : upsert devices "00:00:00" payload
        = (Registry.insert devices "00:00:00" (update d payload).1,
            false, (update d payload).2) := by
      unfold upsert
      rw [hfind]
    have hpe : process_event mqtt now devices ev
        = ((publishPhase mqtt now
              (Registry.insert devices "00:00:00" (update d payload).1) "00:00:00").1,
           (publishPhase mqtt now
              (Registry.insert devices "00:00:00" (update d payload).1) "00:00:00").2,
           true) := by
      unfold process_event
      rw [hlk, hname]
      simp only [Option.getD_none, hup, hok, if_true]
    refine ⟨?_, fun hc => Option.noConfusion hc, fun d' hd' hsent => ?_⟩
    · rw [hpe]
      exact publishPhase_find_isSome mqtt now _ "00:00:00"
        (by rw [Registry.find_insert_self]; rfl)
    · injection hd' with hd'
      subst hd'
      have hidu : (update d payload).1.device_id = "00:00:00" := by
        rw [update_eq_of_length d payload hlen]
        exact hsent
      have hps := publishPhase_sentinel mqtt now
        (Registry.insert devices "00:00:00" (update d payload).1) (update d payload).1
        (Registry.find_insert_self devices "00:00:00" (update d payload).1) hidu
      exact ⟨by rw [hpe]; exact hps.1, by rw [hpe]; exact hps.2⟩

/-- C10 witness: a recognized, nameless advertisement into an empty registry
creates the shared sentinel record and publishes nothing. -/
theorem c10_unresolved_witness :
    (Registry.find (process_event true 0 [] ⟨[(653, bufC8)], none⟩).1 "00:00:00").isSome = true
    ∧ (process_event true 0 [] ⟨[(653, bufC8)], none⟩).2.1 = [] := by
  have h := c10_unresolved true 0 [] ⟨[(653, bufC8)], none⟩ bufC8 rfl rfl (by decide)
  exact ⟨h.1, (h.2.1 rfl).1⟩
